import Mathlib

/-!
Verification of the faceSIP capture/matching core.

The data model and operations below are shallow embeddings of the
repository's TypeScript source:

* `User`, `loginWithFace`, `signup` — `src/contexts/auth-context.tsx`
* `CaptureState`, `startCamera`, `stopCamera`, the capture-button
  conditions — `src/components/face/face-capture.tsx` and its
  descriptor-computing revision.

Floating-point face descriptors are modelled as lists of rationals, and
Euclidean distances are carried as their squares (`dist2`): squaring is an
order embedding on nonnegative reals, so every comparison the code makes
between a Euclidean distance and a nonnegative threshold is faithfully
represented by comparing the squared distance with the squared threshold.

External collaborators (the camera, the Genkit image-enhancement flow) are
modelled as explicit outcome parameters, matching the spec's treatment of
them as black-box capabilities.
-/

namespace FaceSIP

/-- A face descriptor (embedding): the code stores `number[]` produced by
face-api.js (`Float32Array` of length 128), modelled as a list of rationals. -/
abbrev Descriptor := List ℚ

/-- Squared Euclidean distance between two descriptors.  face-api.js compares
plain Euclidean distances; we carry the square to stay inside ℚ. -/
def dist2 (a b : Descriptor) : ℚ :=
  (List.zipWith (fun x y => (x - y) ^ 2) a b).sum

/-- `src/types/index.ts`: the `User` interface.  `faceDescriptor?: number[]`
is optional, hence `Option`; `isAdmin?: boolean` is always set by `signup`. -/
structure User where
  id : String
  name : String
  email : String
  faceImageUri : String
  enhancedFaceImageUri : String
  faceDescriptor : Option Descriptor
  isAdmin : Bool
deriving Repr, DecidableEq

/-- The filter in `loginWithFace`:
`user.faceDescriptor && user.faceDescriptor.length > 0`. -/
def hasDesc (u : User) : Bool :=
  match u.faceDescriptor with
  | some d => decide (0 < d.length)
  | none => false

/-- `auth-context.tsx`: `const FACE_MATCH_THRESHOLD = 0.55`. -/
def FACE_MATCH_THRESHOLD : ℚ := 11 / 20

/-- The `labeledFaceDescriptors` array built by `loginWithFace`: users with a
present, non-empty descriptor, labelled by their id. -/
def labeledDescriptors (users : List User) : List (String × Descriptor) :=
  (users.filter hasDesc).map fun u => (u.id, u.faceDescriptor.getD [])

/-- Modelled from the spec: result of the external face-api.js
`FaceMatcher.findBestMatch` (the library is not part of this repository's
sources).  §4.4: `Matched(identityId, distance)` or `Unknown(bestDistance)`;
distances are carried squared. -/
inductive MatchOutcome where
  | matched (label : String) (distanceSq : ℚ)
  | unknown (distanceSq : ℚ)
deriving Repr, DecidableEq

/-- Left fold selecting the closest labelled distance; on ties the earlier
entry is kept ("the one encountered first in roster iteration order wins",
spec §4.4). -/
def runningBest (acc : String × ℚ) : List (String × ℚ) → String × ℚ
  | [] => acc
  | e :: rest => runningBest (if e.2 < acc.2 then e else acc) rest

/-- Reduce a list of labelled (squared) distances to the best one, if any. -/
def reduceBest : List (String × ℚ) → Option (String × ℚ)
  | [] => none
  | e :: rest => some (runningBest e rest)

/-- Modelled from the spec: the distance-minimisation step of the external
face-api.js `FaceMatcher` — the squared Euclidean distance from the query to
every labelled roster descriptor, reduced to the best (first-wins) entry. -/
def bestDist (query : Descriptor) (labeled : List (String × Descriptor)) :
    Option (String × ℚ) :=
  reduceBest (labeled.map fun p => (p.1, dist2 query p.2))

/-- Modelled from the spec: the external face-api.js
`FaceMatcher.findBestMatch` as specified in §4.4 — "if minimum ≤ `threshold`,
returns `Matched(identityId, distance)`; otherwise returns
`Unknown(bestDistance)`" (inclusive boundary), compared here on squares. -/
def findBestMatch (query : Descriptor) (labeled : List (String × Descriptor))
    (threshold : ℚ) : Option MatchOutcome :=
  match bestDist query labeled with
  | none => none
  | some b =>
    some (if b.2 ≤ threshold ^ 2 then .matched b.1 b.2 else .unknown b.2)

/-- The distinct exits of `loginWithFace`, one per `return` site (each exit
shows a distinct toast in the code; `success` is the single `return true`). -/
inductive LoginOutcome where
  | noUsers
  | noQueryDescriptor
  | enhanceFailed
  | noDescriptors
  | matchedUserMissing
  | unrecognized (distanceSq : ℚ)
  | success (u : User)
deriving Repr, DecidableEq

/-- The boolean `loginWithFace` returns to its caller. -/
def LoginOutcome.succeeded : LoginOutcome → Bool
  | .success _ => true
  | _ => false

/-- The persistent authentication state: the `users` roster and
`currentUser`, both kept in local storage by `AuthProvider`. -/
structure AuthState where
  users : List User
  currentUser : Option User
deriving Repr, DecidableEq

/-- Result of a `loginWithFace` call: the exit taken, the state afterwards,
and how many roster descriptors were compared against the query (an effect
tally: 0 on every early exit, one comparison per labelled descriptor when the
matcher runs). -/
structure LoginResult where
  outcome : LoginOutcome
  state : AuthState
  comparisons : Nat
deriving Repr, DecidableEq

/-- `auth-context.tsx` `loginWithFace`.  The captured descriptor may be
`null`; the external enhancement call's result is the `enhanceResult`
parameter (`null` = failure); the matcher threshold is the `threshold`
argument (the code instantiates it with `FACE_MATCH_THRESHOLD`). -/
def loginWithFace (s : AuthState) (capturedFaceDescriptor : Option Descriptor)
    (enhanceResult : Option String) (threshold : ℚ) : LoginResult :=
  if s.users.length = 0 then ⟨.noUsers, s, 0⟩
  else
    match capturedFaceDescriptor with
    | none => ⟨.noQueryDescriptor, s, 0⟩
    | some query =>
      match enhanceResult with
      | none => ⟨.enhanceFailed, s, 0⟩
      | some _ =>
        match findBestMatch query (labeledDescriptors s.users) threshold with
        | none => ⟨.noDescriptors, s, 0⟩
        | some (.matched label _) =>
          match s.users.find? (fun v => v.id == label) with
          | some matchedUser =>
            ⟨.success matchedUser, { s with currentUser := some matchedUser },
              (labeledDescriptors s.users).length⟩
          | none => ⟨.matchedUserMissing, s, (labeledDescriptors s.users).length⟩
        | some (.unknown d) =>
          ⟨.unrecognized d, s, (labeledDescriptors s.users).length⟩

/-- The distinct exits of `signup`, one per `return` site. -/
inductive SignupOutcome where
  | duplicateEmail
  | noDescriptor
  | enhanceFailed
  | created (u : User)
deriving Repr, DecidableEq

/-- `auth-context.tsx` `signup`.  `newId` stands for `Date.now().toString()`;
`enhanceResult` is the external enhancement call's result. -/
def signup (s : AuthState) (name email faceImageUri : String)
    (faceDescriptor : Option Descriptor) (enhanceResult : Option String)
    (newId : String) : SignupOutcome × AuthState :=
  if s.users.any (fun u => u.email == email) then (.duplicateEmail, s)
  else
    match faceDescriptor with
    | none => (.noDescriptor, s)
    | some d =>
      match enhanceResult with
      | none => (.enhanceFailed, s)
      | some enhancedUri =>
        let newUser : User :=
          { id := newId, name := name, email := email,
            faceImageUri := faceImageUri,
            enhancedFaceImageUri := enhancedUri,
            faceDescriptor := some d,
            isAdmin := s.users.length == 0 }
        (.created newUser, { users := s.users ++ [newUser], currentUser := some newUser })

/-- State of one `FaceCapture` widget, following the descriptor-computing
revision of `face-capture.tsx` (the final `src/components/face` revision has
the same fields minus `isFaceDetectedInPreview` and
`descriptorModelsLoaded`).  `stream` holds the acquired camera stream handle;
`cameraOperationInProgress` is the re-entrancy ref; `detectionInterval`
records whether the 200 ms live-detection interval is registered. -/
structure CaptureState where
  imageDataUrl : Option String
  stream : Option Nat
  error : Option String
  isStartingCamera : Bool
  isCameraActive : Bool
  isTakingPicture : Bool
  modelsLoaded : Bool
  descriptorModelsLoaded : Bool
  isFaceDetectedInPreview : Bool
  cameraOperationInProgress : Bool
  detectionInterval : Bool
deriving Repr, DecidableEq

/-- `face-capture.tsx` `stopCamera`: clears the detection interval, stops the
tracks of the held stream (if any), then clears `stream`, `isCameraActive`
and (descriptor revision) `isFaceDetectedInPreview`.  The second component
tallies how many held streams had their tracks stopped by this call. -/
def stopCamera (s : CaptureState) : CaptureState × Nat :=
  ({ s with detectionInterval := false,
            stream := none,
            isCameraActive := false,
            isFaceDetectedInPreview := false },
    if s.stream.isSome then 1 else 0)

/-- Outcome of the external `navigator.mediaDevices.getUserMedia` call:
unavailable API, a thrown acquisition error, or a granted stream handle. -/
inductive AcquireOutcome where
  | unsupported
  | failed (message : String)
  | granted (handle : Nat)
deriving Repr, DecidableEq

/-- `face-capture.tsx` `startCamera`.  The two leading guards make the call a
no-op while an operation is in flight or the camera is already active with a
stream.  The second component records whether `getUserMedia` was invoked
(i.e. whether a camera stream was requested). -/
def startCamera (s : CaptureState) (outcome : AcquireOutcome) :
    CaptureState × Bool :=
  if s.cameraOperationInProgress then (s, false)
  else if s.isCameraActive && s.stream.isSome then (s, false)
  else
    let s1 : CaptureState :=
      { s with cameraOperationInProgress := true,
               error := none,
               imageDataUrl := none,
               isStartingCamera := true,
               isCameraActive := false,
               isFaceDetectedInPreview := false }
    match outcome with
    | .granted h => ({ s1 with stream := some h }, true)
    | .unsupported =>
      ({ s1 with error := some "Camera access not supported by your browser.",
                 isStartingCamera := false,
                 cameraOperationInProgress := false }, false)
    | .failed message =>
      ({ s1 with error := some message,
                 stream := none,
                 isCameraActive := false,
                 isStartingCamera := false,
                 cameraOperationInProgress := false }, true)

/-- Descriptor revision of `face-capture.tsx`, capture button:
`disabled={isTakingPicture || !allModelsFullyLoaded || !isFaceDetectedInPreview}`
with `allModelsFullyLoaded = modelsLoaded && descriptorModelsLoaded`. -/
def captureDisabled (s : CaptureState) : Bool :=
  s.isTakingPicture || !(s.modelsLoaded && s.descriptorModelsLoaded)
    || !s.isFaceDetectedInPreview

/-- Final revision `src/components/face/face-capture.tsx`, capture button:
`disabled={isTakingPicture || !modelsLoaded}`. -/
def captureDisabledFinal (s : CaptureState) : Bool :=
  s.isTakingPicture || !s.modelsLoaded

/-- Descriptor revision, `captureFace` guard: the still capture proceeds only
when a stream is held, the camera is active, and a face is currently
detected in the preview. -/
def captureFaceProceeds (s : CaptureState) : Bool :=
  s.stream.isSome && s.isCameraActive && s.isFaceDetectedInPreview

/-! ### Helper lemmas about the matcher -/

theorem dist2_nonneg (a b : Descriptor) : 0 ≤ dist2 a b := by
  induction a generalizing b with
  | nil => simp [dist2]
  | cons x xs ih =>
    cases b with
    | nil => simp [dist2]
    | cons y ys =>
      have hrest := ih ys
      have hsq : 0 ≤ (x - y) ^ 2 := sq_nonneg _
      have hstep : dist2 (x :: xs) (y :: ys) = (x - y) ^ 2 + dist2 xs ys := by
        simp [dist2, List.zipWith]
      rw [hstep]
      linarith

theorem dist2_self (a : Descriptor) : dist2 a a = 0 := by
  induction a with
  | nil => rfl
  | cons x xs ih =>
    have hstep : dist2 (x :: xs) (x :: xs) = (x - x) ^ 2 + dist2 xs xs := by
      simp [dist2, List.zipWith]
    rw [hstep, ih, sub_self]
    ring

theorem runningBest_append (acc : String × ℚ) (xs ys : List (String × ℚ)) :
    runningBest acc (xs ++ ys) = runningBest (runningBest acc xs) ys := by
  induction xs generalizing acc with
  | nil => rfl
  | cons e rest ih => simp [runningBest, ih]

theorem runningBest_mem (acc : String × ℚ) (xs : List (String × ℚ)) :
    runningBest acc xs = acc ∨ runningBest acc xs ∈ xs := by
  induction xs generalizing acc with
  | nil => exact Or.inl rfl
  | cons e rest ih =>
    rw [runningBest]
    by_cases h : e.2 < acc.2
    · rw [if_pos h]
      rcases ih e with h1 | h1
      · rw [h1]; exact Or.inr (List.mem_cons_self _ _)
      · exact Or.inr (List.mem_cons_of_mem _ h1)
    · rw [if_neg h]
      rcases ih acc with h1 | h1
      · exact Or.inl h1
      · exact Or.inr (List.mem_cons_of_mem _ h1)

theorem runningBest_stays (acc : String × ℚ) (xs : List (String × ℚ))
    (h : ∀ e ∈ xs, acc.2 ≤ e.2) : runningBest acc xs = acc := by
  induction xs with
  | nil => rfl
  | cons e rest ih =>
    rw [runningBest, if_neg (not_lt.mpr (h e (List.mem_cons_self _ _)))]
    exact ih fun e he => h e (List.mem_cons_of_mem _ he)

theorem reduceBest_mem (xs : List (String × ℚ)) (b : String × ℚ)
    (h : reduceBest xs = some b) : b ∈ xs := by
  cases xs with
  | nil => simp [reduceBest] at h
  | cons e rest =>
    simp only [reduceBest, Option.some.injEq] at h
    rw [← h]
    rcases runningBest_mem e rest with h1 | h1
    · rw [h1]; exact List.mem_cons_self _ _
    · exact List.mem_cons_of_mem _ h1

/-- The first entry with squared distance 0 wins the reduction when every
earlier entry is strictly positive and every later one is nonnegative. -/
theorem reduceBest_zero (preE postE : List (String × ℚ)) (lbl : String)
    (hpre : ∀ e ∈ preE, 0 < e.2) (hpost : ∀ e ∈ postE, 0 ≤ e.2) :
    reduceBest (preE ++ (lbl, (0 : ℚ)) :: postE) = some (lbl, (0 : ℚ)) := by
  cases preE with
  | nil =>
    simp only [List.nil_append, reduceBest, Option.some.injEq]
    exact runningBest_stays _ _ hpost
  | cons h0 pre =>
    simp only [List.cons_append, reduceBest, Option.some.injEq]
    have hsplit : pre ++ (lbl, (0 : ℚ)) :: postE
        = (pre ++ [(lbl, (0 : ℚ))]) ++ postE := by simp
    rw [hsplit, runningBest_append, runningBest_append]
    have hbpos : 0 < (runningBest h0 pre).2 := by
      rcases runningBest_mem h0 pre with h1 | h1
      · rw [h1]; exact hpre h0 (List.mem_cons_self _ _)
      · exact hpre _ (List.mem_cons_of_mem _ h1)
    have hzero : runningBest (runningBest h0 pre) [(lbl, (0 : ℚ))]
        = (lbl, (0 : ℚ)) := by
      have hcond : ((lbl, (0 : ℚ))).2 < (runningBest h0 pre).2 := hbpos
      rw [runningBest, if_pos hcond, runningBest]
    rw [hzero]
    exact runningBest_stays _ _ hpost

/-- In a roster with pairwise-distinct ids, `find?` on an id returns exactly
the member carrying that id. -/
theorem find_eq_of_mem_pairwise (l : List User) (w : User) (hw : w ∈ l)
    (hp : l.Pairwise fun a b => a.id ≠ b.id) :
    l.find? (fun v => v.id == w.id) = some w := by
  induction l with
  | nil => cases hw
  | cons x xs ih =>
    rw [List.pairwise_cons] at hp
    rcases List.mem_cons.mp hw with rfl | hmem
    · simp [List.find?_cons]
    · have hne : x.id ≠ w.id := hp.1 w hmem
      rw [List.find?_cons]
      have hfalse : (x.id == w.id) = false := beq_eq_false_iff_ne.mpr hne
      rw [hfalse]
      exact ih hmem hp.2

/-- Every label produced by `labeledDescriptors` is the id of a roster user
that passes the descriptor filter. -/
theorem labeled_label_spec (users : List User) (p : String × Descriptor)
    (hp : p ∈ labeledDescriptors users) :
    ∃ w ∈ users, hasDesc w = true ∧ p.1 = w.id := by
  obtain ⟨w, hw, rfl⟩ := List.mem_map.mp hp
  obtain ⟨hwu, hwd⟩ := List.mem_filter.mp hw
  exact ⟨w, hwu, hwd, rfl⟩

/-- Inversion of a successful `signup`: the created user carries
`isAdmin = (roster was empty)`, is appended to the roster, and becomes the
current user. -/
theorem signup_created_inv (s : AuthState) (name email uri : String)
    (fd : Option Descriptor) (enh : Option String) (newId : String)
    (u : User) (s' : AuthState)
    (h : signup s name email uri fd enh newId = (.created u, s')) :
    u.isAdmin = (s.users.length == 0) ∧
    s'.users = s.users ++ [u] ∧ s'.currentUser = some u := by
  rw [signup.eq_def] at h
  split at h
  · simp at h
  · cases fd with
    | none => simp at h
    | some d =>
      cases enh with
      | none => simp at h
      | some e =>
        simp only [Prod.mk.injEq, SignupOutcome.created.injEq] at h
        obtain ⟨hu, hs⟩ := h
        rw [← hu, ← hs]
        exact ⟨rfl, rfl, rfl⟩

/-! ### Claim theorems -/

/-- C3: matching against an empty roster takes the distinct
no-enrolled-identities exit of `loginWithFace` — never the
unrecognized-face (`Unknown`) exit — returns `false`, and leaves the state
(in particular the current user) unchanged, for every query descriptor,
enhancement result and threshold. -/
theorem empty_roster_distinct_failure (s : AuthState) (h : s.users = [])
    (q : Option Descriptor) (enh : Option String) (th : ℚ) :
    (loginWithFace s q enh th).outcome = .noUsers ∧
    (∀ d, (loginWithFace s q enh th).outcome ≠ .unrecognized d) ∧
    (loginWithFace s q enh th).outcome.succeeded = false ∧
    (loginWithFace s q enh th).state = s := by
  have hlen : s.users.length = 0 := by rw [h]; rfl
  simp [loginWithFace, hlen, LoginOutcome.succeeded]

/-- Witness for C3 at a concrete empty roster. -/
theorem empty_roster_distinct_failure_w :
    (loginWithFace ⟨[], none⟩ (some [1]) (some "img") FACE_MATCH_THRESHOLD).outcome
        = .noUsers ∧
    (∀ d, (loginWithFace ⟨[], none⟩ (some [1]) (some "img")
        FACE_MATCH_THRESHOLD).outcome ≠ .unrecognized d) ∧
    (loginWithFace ⟨[], none⟩ (some [1]) (some "img")
        FACE_MATCH_THRESHOLD).outcome.succeeded = false ∧
    (loginWithFace ⟨[], none⟩ (some [1]) (some "img")
        FACE_MATCH_THRESHOLD).state = ⟨[], none⟩ :=
  empty_roster_distinct_failure ⟨[], none⟩ rfl (some [1]) (some "img")
    FACE_MATCH_THRESHOLD

/-- C5: `signup` with an email already present in the roster takes the
duplicate-email exit (returning `false`) and leaves the state — in
particular the roster — unchanged. -/
theorem duplicate_email_rejected (s : AuthState) (name email uri : String)
    (fd : Option Descriptor) (enh : Option String) (newId : String)
    (h : s.users.any (fun u => u.email == email) = true) :
    signup s name email uri fd enh newId = (.duplicateEmail, s) := by
  rw [signup.eq_def, if_pos h]

/-- Witness for C5: signing up a second user with an already-taken email. -/
theorem duplicate_email_rejected_w :
    signup ⟨[⟨"1", "a", "a@x.com", "ra", "ea", some [1], true⟩], none⟩
        "b" "a@x.com" "rb" (some [2]) (some "eb") "2"
      = (.duplicateEmail,
         ⟨[⟨"1", "a", "a@x.com", "ra", "ea", some [1], true⟩], none⟩) :=
  duplicate_email_rejected _ "b" "a@x.com" "rb" (some [2]) (some "eb") "2"
    (by decide)

/-- C6: every successful `signup` into an empty roster creates the user with
`isAdmin = true`, and every successful `signup` into a non-empty roster
creates it with `isAdmin = false`. -/
theorem first_enrollment_privileged (s : AuthState) (name email uri : String)
    (fd : Option Descriptor) (enh : Option String) (newId : String)
    (u : User) (s' : AuthState)
    (h : signup s name email uri fd enh newId = (.created u, s')) :
    (s.users = [] → u.isAdmin = true) ∧ (s.users ≠ [] → u.isAdmin = false) := by
  have hadm := (signup_created_inv s name email uri fd enh newId u s' h).1
  constructor
  · intro he
    rw [hadm, he]
    rfl
  · intro hne
    rw [hadm]
    have hlen : s.users.length ≠ 0 := fun h0 => hne (List.length_eq_zero.mp h0)
    exact beq_eq_false_iff_ne.mpr hlen

/-- Witness for C6: the first enrollment gets `isAdmin = true`. -/
theorem first_enrollment_privileged_w :
    ((⟨[], none⟩ : AuthState).users = [] →
      (⟨"1", "a", "a@x.com", "ra", "ea", some [1], true⟩ : User).isAdmin = true) ∧
    ((⟨[], none⟩ : AuthState).users ≠ [] →
      (⟨"1", "a", "a@x.com", "ra", "ea", some [1], true⟩ : User).isAdmin = false) :=
  first_enrollment_privileged ⟨[], none⟩ "a" "a@x.com" "ra" (some [1])
    (some "ea") "1" ⟨"1", "a", "a@x.com", "ra", "ea", some [1], true⟩
    ⟨[⟨"1", "a", "a@x.com", "ra", "ea", some [1], true⟩],
     some ⟨"1", "a", "a@x.com", "ra", "ea", some [1], true⟩⟩
    (by with_unfolding_all decide)

/-- C10: every successful `signup` appends the created user to the roster and
makes that user the current (logged-in) user. -/
theorem signup_appends_and_logs_in (s : AuthState) (name email uri : String)
    (fd : Option Descriptor) (enh : Option String) (newId : String)
    (u : User) (s' : AuthState)
    (h : signup s name email uri fd enh newId = (.created u, s')) :
    s'.users = s.users ++ [u] ∧ s'.currentUser = some u :=
  (signup_created_inv s name email uri fd enh newId u s' h).2

/-- Witness for C10 at a concrete successful enrollment. -/
theorem signup_appends_and_logs_in_w :
    (⟨[⟨"1", "a", "a@x.com", "ra", "ea", some [1], true⟩,
       ⟨"2", "b", "b@x.com", "rb", "eb", some [2], false⟩],
      some ⟨"2", "b", "b@x.com", "rb", "eb", some [2], false⟩⟩ : AuthState).users
        = (⟨[⟨"1", "a", "a@x.com", "ra", "ea", some [1], true⟩], none⟩
            : AuthState).users
          ++ [⟨"2", "b", "b@x.com", "rb", "eb", some [2], false⟩] ∧
    (⟨[⟨"1", "a", "a@x.com", "ra", "ea", some [1], true⟩,
       ⟨"2", "b", "b@x.com", "rb", "eb", some [2], false⟩],
      some ⟨"2", "b", "b@x.com", "rb", "eb", some [2], false⟩⟩
        : AuthState).currentUser
        = some ⟨"2", "b", "b@x.com", "rb", "eb", some [2], false⟩ :=
  signup_appends_and_logs_in
    ⟨[⟨"1", "a", "a@x.com", "ra", "ea", some [1], true⟩], none⟩
    "b" "b@x.com" "rb" (some [2]) (some "eb") "2"
    ⟨"2", "b", "b@x.com", "rb", "eb", some [2], false⟩ _
    (by with_unfolding_all decide)

/-- C7: while a camera operation is in flight (`Acquiring`) or the camera is
active with a held stream (`Live`), `startCamera` is a no-op: the state is
returned unchanged and `getUserMedia` is not invoked (no second stream is
requested), whatever the would-be acquisition outcome. -/
theorem start_reentrancy_noop (s : CaptureState) (o : AcquireOutcome)
    (h : s.cameraOperationInProgress = true ∨
         (s.isCameraActive = true ∧ s.stream.isSome = true)) :
    startCamera s o = (s, false) := by
  rcases h with h | ⟨h1, h2⟩
  · rw [startCamera, if_pos h]
  · rw [startCamera]
    by_cases hop : s.cameraOperationInProgress = true
    · rw [if_pos hop]
    · rw [if_neg hop, if_pos (show (s.isCameraActive && s.stream.isSome) = true
        by rw [h1, h2]; rfl)]

/-- Witness for C7: a live session (active, stream held) ignores `start`. -/
theorem start_reentrancy_noop_w :
    startCamera ⟨none, some 7, none, false, true, false, true, true, true,
        false, true⟩ (.granted 8)
      = (⟨none, some 7, none, false, true, false, true, true, true,
          false, true⟩, false) :=
  start_reentrancy_noop _ (.granted 8) (Or.inr ⟨rfl, rfl⟩)

/-- C8: `stopCamera` is idempotent — a second call returns the same terminal
state, performs no further track release, and across both calls the held
stream's tracks are stopped exactly once (not at all if no stream was held). -/
theorem stop_idempotent (s : CaptureState) :
    (stopCamera (stopCamera s).1).1 = (stopCamera s).1 ∧
    (stopCamera (stopCamera s).1).2 = 0 ∧
    (stopCamera s).2 + (stopCamera (stopCamera s).1).2
      = (if s.stream.isSome then 1 else 0) := by
  refine ⟨rfl, rfl, ?_⟩
  simp [stopCamera]

/-- C4 counterexample: with the detection models failed to load (so
`modelsLoaded = false` stays false forever) and the camera otherwise fully
available — live video, stream held, a face even visible, no capture in
flight — the capture button is disabled in both revisions.  Still capture is
therefore blocked, not degraded to "always allowed". -/
theorem capture_blocked_counterexample :
    captureDisabled ⟨none, some 0, some "Failed to load face detection models.",
        false, true, false, false, false, true, false, false⟩ = true ∧
    captureDisabledFinal ⟨none, some 0,
        some "Failed to load face detection models.",
        false, true, false, false, false, true, false, false⟩ = true := by
  decide

/-- C4 (amended): when the face-detection models failed to load, still
capture is permanently blocked — the capture button stays disabled in both
revisions — rather than degrading to "always allowed"; and in the
descriptor revision, once all models are loaded (and no capture is in
flight) the face-currently-visible boolean alone decides whether capture is
permitted. -/
theorem capture_gating (s : CaptureState) :
    (s.modelsLoaded = false →
      captureDisabled s = true ∧ captureDisabledFinal s = true) ∧
    (s.modelsLoaded = true → s.descriptorModelsLoaded = true →
      s.isTakingPicture = false →
      (captureDisabled s = false ↔ s.isFaceDetectedInPreview = true)) := by
  constructor
  · intro h
    constructor
    · simp [captureDisabled, h]
    · simp [captureDisabledFinal, h]
  · intro h1 h2 h3
    simp [captureDisabled, h1, h2, h3]

/-- Witness for C4: the blocked case at a models-failed state, and the
face-visibility gating at a models-loaded state. -/
theorem capture_gating_w :
    (captureDisabled ⟨none, some 0, some "model load failed", false, true,
        false, false, false, true, false, false⟩ = true ∧
     captureDisabledFinal ⟨none, some 0, some "model load failed", false, true,
        false, false, false, true, false, false⟩ = true) ∧
    (captureDisabled ⟨none, some 1, none, false, true,
        false, true, true, true, false, true⟩ = false ↔
     (⟨none, some 1, none, false, true,
        false, true, true, true, false, true⟩ : CaptureState).isFaceDetectedInPreview
       = true) :=
  ⟨(capture_gating _).1 rfl, (capture_gating _).2 rfl rfl rfl⟩

/-- If the matcher produced a best entry, the roster was non-empty. -/
theorem bestDist_users_ne_nil (users : List User) (q : Descriptor)
    (l : String) (d : ℚ)
    (h : bestDist q (labeledDescriptors users) = some (l, d)) :
    users.length ≠ 0 := by
  intro h0
  rw [List.length_eq_zero.mp h0] at h
  simp [labeledDescriptors, bestDist, reduceBest] at h

/-- C2: the match threshold is an inclusive boundary.  If the best (squared)
distance of the roster to the query equals the squared threshold exactly, the
matcher returns `Matched`; if it equals the square of `threshold + ε` for any
`ε > 0`, the matcher returns `Unknown` and `loginWithFace` fails through the
unrecognized-face exit with the state unchanged.  (Squared distances encode
plain Euclidean distances: for `0 ≤ th`, `dist = th ↔ dist² = th²` and
`dist = th + ε ↔ dist² = (th + ε)²`.) -/
theorem threshold_boundary (s : AuthState) (q : Descriptor) (enh : String)
    (th ε : ℚ) (l : String) (d : ℚ)
    (hth : 0 ≤ th) (hε : 0 < ε)
    (hbest : bestDist q (labeledDescriptors s.users) = some (l, d)) :
    (d = th ^ 2 →
      findBestMatch q (labeledDescriptors s.users) th = some (.matched l d)) ∧
    (d = (th + ε) ^ 2 →
      findBestMatch q (labeledDescriptors s.users) th = some (.unknown d) ∧
      loginWithFace s (some q) (some enh) th
        = ⟨.unrecognized d, s, (labeledDescriptors s.users).length⟩) := by
  constructor
  · intro hd
    rw [findBestMatch, hbest]
    simp only [Option.some.injEq]
    rw [if_pos (show ((l, d)).2 ≤ th ^ 2 by rw [hd])]
  · intro hd
    have hgt : ¬ (((l, d)).2 ≤ th ^ 2) := by
      simp only [not_le]
      rw [hd]
      nlinarith
    have hFBM : findBestMatch q (labeledDescriptors s.users) th
        = some (.unknown d) := by
      rw [findBestMatch, hbest]
      simp only [Option.some.injEq]
      rw [if_neg hgt]
    refine ⟨hFBM, ?_⟩
    have hlen := bestDist_users_ne_nil s.users q l d hbest
    rw [loginWithFace, if_neg hlen]
    simp only [hFBM]

/-- Witness for C2: one enrolled descriptor at squared distance exactly
`FACE_MATCH_THRESHOLD ^ 2` from the query. -/
theorem threshold_boundary_w :
    (((121 : ℚ) / 400) = FACE_MATCH_THRESHOLD ^ 2 →
      findBestMatch [0]
          (labeledDescriptors
            [⟨"1", "a", "a@x.com", "ra", "ea", some [11 / 20], true⟩])
          FACE_MATCH_THRESHOLD
        = some (.matched "1" (121 / 400))) ∧
    (((121 : ℚ) / 400) = (FACE_MATCH_THRESHOLD + 1) ^ 2 →
      findBestMatch [0]
          (labeledDescriptors
            [⟨"1", "a", "a@x.com", "ra", "ea", some [11 / 20], true⟩])
          FACE_MATCH_THRESHOLD
        = some (.unknown (121 / 400)) ∧
      loginWithFace ⟨[⟨"1", "a", "a@x.com", "ra", "ea", some [11 / 20], true⟩],
          none⟩ (some [0]) (some "img") FACE_MATCH_THRESHOLD
        = ⟨.unrecognized (121 / 400),
           ⟨[⟨"1", "a", "a@x.com", "ra", "ea", some [11 / 20], true⟩], none⟩,
           (labeledDescriptors
             [⟨"1", "a", "a@x.com", "ra", "ea", some [11 / 20], true⟩]).length⟩) :=
  threshold_boundary
    ⟨[⟨"1", "a", "a@x.com", "ra", "ea", some [11 / 20], true⟩], none⟩
    [0] "img" FACE_MATCH_THRESHOLD 1 "1" (121 / 400)
    (by norm_num [FACE_MATCH_THRESHOLD]) (by norm_num)
    (by with_unfolding_all decide)

/-- Inversion: a `Matched` result comes from the best roster entry, whose
squared distance is within the squared threshold. -/
theorem findBestMatch_matched_inv (q : Descriptor)
    (labeled : List (String × Descriptor)) (th : ℚ) (l : String) (d : ℚ)
    (h : findBestMatch q labeled th = some (.matched l d)) :
    bestDist q labeled = some (l, d) ∧ d ≤ th ^ 2 := by
  rw [findBestMatch] at h
  cases hb : bestDist q labeled with
  | none => rw [hb] at h; simp at h
  | some b =>
    rw [hb] at h
    simp only [Option.some.injEq] at h
    split at h
    case isTrue hle =>
      simp only [MatchOutcome.matched.injEq] at h
      obtain ⟨h1, h2⟩ := h
      subst h1
      subst h2
      exact ⟨rfl, hle⟩
    case isFalse hgt => simp at h

/-- C9: matching considers only enrolled users with a present, non-empty
descriptor.  In a roster with distinct ids (the data-model invariant),
`loginWithFace` never succeeds as a user lacking such a descriptor; and if
no registered user has one, it takes the distinct no-descriptors exit with
zero distance comparisons performed and the state unchanged. -/
theorem login_requires_descriptor (s : AuthState) (q : Descriptor)
    (enh : String) (th : ℚ)
    (hids : s.users.Pairwise fun a b => a.id ≠ b.id) :
    (∀ u, (loginWithFace s (some q) (some enh) th).outcome = .success u →
      hasDesc u = true) ∧
    (s.users ≠ [] → (∀ u ∈ s.users, hasDesc u = false) →
      loginWithFace s (some q) (some enh) th = ⟨.noDescriptors, s, 0⟩) := by
  constructor
  · intro u hsucc
    by_cases h0 : s.users.length = 0
    · rw [loginWithFace, if_pos h0] at hsucc
      simp at hsucc
    · rw [loginWithFace, if_neg h0] at hsucc
      cases hFBM : findBestMatch q (labeledDescriptors s.users) th with
      | none => rw [hFBM] at hsucc; simp at hsucc
      | some mo =>
        cases mo with
        | unknown d => rw [hFBM] at hsucc; simp at hsucc
        | matched label d =>
          simp only [hFBM] at hsucc
          cases hfind : s.users.find? (fun v => v.id == label) with
          | none => simp only [hfind] at hsucc; simp at hsucc
          | some mu =>
            simp only [hfind] at hsucc
            simp only [LoginOutcome.success.injEq] at hsucc
            have hbd := (findBestMatch_matched_inv q _ th label d hFBM).1
            have hmem : (label, d) ∈ (labeledDescriptors s.users).map
                (fun p => (p.1, dist2 q p.2)) := reduceBest_mem _ _ hbd
            obtain ⟨p, hp, hpe⟩ := List.mem_map.mp hmem
            obtain ⟨w, hwu, hwd, hwid⟩ := labeled_label_spec s.users p hp
            have hlab : w.id = label := by
              rw [← hwid]
              exact congrArg Prod.fst hpe
            have hfw := find_eq_of_mem_pairwise s.users w hwu hids
            rw [hlab, hfind] at hfw
            have hwmu : w = mu := by
              injection hfw with hwmu
              exact hwmu.symm
            rw [← hsucc, ← hwmu]
            exact hwd
  · intro hne hnodesc
    have h0 : ¬ s.users.length = 0 := fun hl => hne (List.length_eq_zero.mp hl)
    have hfe : s.users.filter hasDesc = [] :=
      List.filter_eq_nil_iff.mpr fun a ha => by simp [hnodesc a ha]
    have hFBM : findBestMatch q (labeledDescriptors s.users) th = none := by
      rw [findBestMatch, labeledDescriptors, hfe]
      rfl
    rw [loginWithFace, if_neg h0]
    simp [hFBM]

/-- Witness for C9: a roster whose only user has no stored descriptor takes
the no-descriptors exit without any comparison. -/
theorem login_requires_descriptor_w :
    loginWithFace ⟨[⟨"1", "a", "a@x.com", "ra", "ea", none, true⟩], none⟩
        (some [0]) (some "img") FACE_MATCH_THRESHOLD
      = ⟨.noDescriptors,
         ⟨[⟨"1", "a", "a@x.com", "ra", "ea", none, true⟩], none⟩, 0⟩ :=
  (login_requires_descriptor
      ⟨[⟨"1", "a", "a@x.com", "ra", "ea", none, true⟩], none⟩
      [0] "img" FACE_MATCH_THRESHOLD (by simp)).2
    (by simp) (by decide)

/-- C1 counterexample: two identities are enrolled with the identical stored
embedding `[0]`.  Querying with exactly user "2"'s stored embedding (at the
code's threshold 0.55 ≥ 0) logs in user "1" — the first equidistant roster
entry — not "that identity": the claim fails for user "2". -/
theorem exact_match_counterexample :
    loginWithFace
        ⟨[⟨"1", "a", "a@x.com", "ra", "ea", some [0], true⟩,
          ⟨"2", "b", "b@x.com", "rb", "eb", some [0], false⟩], none⟩
        (some [0]) (some "img") FACE_MATCH_THRESHOLD
      = ⟨.success ⟨"1", "a", "a@x.com", "ra", "ea", some [0], true⟩,
         ⟨[⟨"1", "a", "a@x.com", "ra", "ea", some [0], true⟩,
           ⟨"2", "b", "b@x.com", "rb", "eb", some [0], false⟩],
          some ⟨"1", "a", "a@x.com", "ra", "ea", some [0], true⟩⟩, 2⟩ ∧
    (⟨"1", "a", "a@x.com", "ra", "ea", some [0], true⟩ : User)
      ≠ ⟨"2", "b", "b@x.com", "rb", "eb", some [0], false⟩ := by
  with_unfolding_all decide

/-- C1 (amended): for an enrolled identity with stored embedding `E` that is
the first roster entry at distance 0 from `E` (in particular whenever no
earlier identity shares that embedding), in a roster with distinct ids,
querying with exactly `E` returns `Matched` for that identity with distance
0 for any threshold ≥ 0, the login succeeds, and the current user becomes
that identity. -/
theorem exact_match_logs_in (s : AuthState) (pre post : List User) (u : User)
    (E : Descriptor) (enh : String) (th : ℚ)
    (hsplit : s.users = pre ++ u :: post)
    (hdesc : u.faceDescriptor = some E)
    (hE : E ≠ [])
    (hfirst : ∀ w ∈ pre, hasDesc w = true →
      dist2 E (w.faceDescriptor.getD []) ≠ 0)
    (hids : s.users.Pairwise fun a b => a.id ≠ b.id)
    (hth : 0 ≤ th) :
    findBestMatch E (labeledDescriptors s.users) th = some (.matched u.id 0) ∧
    loginWithFace s (some E) (some enh) th
      = ⟨.success u, { s with currentUser := some u },
         (labeledDescriptors s.users).length⟩ := by
  have hdu : hasDesc u = true := by
    rw [hasDesc, hdesc]
    simpa using List.length_pos.mpr hE
  have hlab : labeledDescriptors s.users
      = (pre.filter hasDesc).map (fun w => (w.id, w.faceDescriptor.getD []))
        ++ (u.id, E)
          :: (post.filter hasDesc).map
              (fun w => (w.id, w.faceDescriptor.getD [])) := by
    rw [labeledDescriptors, hsplit, List.filter_append,
      List.filter_cons_of_pos hdu, List.map_append, List.map_cons, hdesc]
    rfl
  have hbd : bestDist E (labeledDescriptors s.users) = some (u.id, 0) := by
    rw [bestDist, hlab, List.map_append, List.map_cons, List.map_map,
      List.map_map]
    have hdEE : dist2 E E = 0 := dist2_self E
    rw [show ((u.id, E).1, dist2 E (u.id, E).2) = (u.id, (0 : ℚ)) by
      rw [← hdEE]]
    apply reduceBest_zero
    · intro e he
      obtain ⟨w, hw, rfl⟩ := List.mem_map.mp he
      obtain ⟨hwpre, hwd⟩ := List.mem_filter.mp hw
      exact lt_of_le_of_ne (dist2_nonneg _ _)
        (Ne.symm (hfirst w hwpre hwd))
    · intro e he
      obtain ⟨w, hw, rfl⟩ := List.mem_map.mp he
      exact dist2_nonneg _ _
  have hFBM : findBestMatch E (labeledDescriptors s.users) th
      = some (.matched u.id 0) := by
    rw [findBestMatch, hbd]
    simp only [Option.some.injEq]
    rw [if_pos (show ((u.id, (0 : ℚ))).2 ≤ th ^ 2 from sq_nonneg th)]
  refine ⟨hFBM, ?_⟩
  have hmem : u ∈ s.users := by
    rw [hsplit]
    exact List.mem_append_right _ (List.mem_cons_self _ _)
  have hfind := find_eq_of_mem_pairwise s.users u hmem hids
  have hlen : ¬ s.users.length = 0 := by
    rw [hsplit]
    simp
  rw [loginWithFace, if_neg hlen]
  simp only [hFBM, hfind]

/-- Witness for C1 (amended): a singleton roster matched against its own
stored embedding at the code's threshold. -/
theorem exact_match_logs_in_w :
    findBestMatch [2]
        (labeledDescriptors [⟨"1", "a", "a@x.com", "ra", "ea", some [2], true⟩])
        FACE_MATCH_THRESHOLD
      = some (.matched "1" 0) ∧
    loginWithFace ⟨[⟨"1", "a", "a@x.com", "ra", "ea", some [2], true⟩], none⟩
        (some [2]) (some "img") FACE_MATCH_THRESHOLD
      = ⟨.success ⟨"1", "a", "a@x.com", "ra", "ea", some [2], true⟩,
         ⟨[⟨"1", "a", "a@x.com", "ra", "ea", some [2], true⟩],
          some ⟨"1", "a", "a@x.com", "ra", "ea", some [2], true⟩⟩,
         (labeledDescriptors
           [⟨"1", "a", "a@x.com", "ra", "ea", some [2], true⟩]).length⟩ :=
  exact_match_logs_in
    ⟨[⟨"1", "a", "a@x.com", "ra", "ea", some [2], true⟩], none⟩ [] []
    ⟨"1", "a", "a@x.com", "ra", "ea", some [2], true⟩ [2] "img"
    FACE_MATCH_THRESHOLD rfl rfl (by decide)
    (fun w hw => absurd hw (List.not_mem_nil w)) (by simp)
    (by norm_num [FACE_MATCH_THRESHOLD])

end FaceSIP
